import Mathlib

/-!
Verification of the local orchestration layer of automate-idea-to-social-mcp.

The development shallowly embeds the docker orchestration module
(`checkDockerStatus`, `createContainerName`, `isContainerRunning`,
`isPortAvailable`/`findAvailablePort`, `runContainer`, `createAndRunContainer`)
and the resilient HTTP client (`ApiClient.makeRequest`, `ApiClient.isUp`, the
`toMap`/`toAgentConfig`/`toTask` coercions).

JavaScript strings are modelled as Lean `String`s, with the string operations
that matter (`trim`, `includes`, `split(':')[0]`, `replace(/\//g,'-')`)
implemented on the underlying `List Char`, mirroring the JS semantics.
External effects (shelling out to docker, binding a TCP port, one HTTP
attempt) are modelled by oracles packed into an explicit world/transport
value, and the functions additionally report the effect trace the code
produces (number of `docker run` invocations; HTTP attempt / sleep events),
so that frame conditions ("no `run` was issued", "zero sleeps") are statable.
-/

namespace AutomateMcp

/-! ## JS string primitives -/

/-- The chars-level trimming performed by JS `String.prototype.trim`:
drop whitespace from the front and from the back. -/
def trimList (l : List Char) : List Char :=
  ((l.dropWhile Char.isWhitespace).reverse.dropWhile Char.isWhitespace).reverse

/-! ## Docker module (docker-service source file)

`DockerWorld` is the state of the external system the module shells out to:
the names of running containers, the names of all existing containers
(running or stopped — `docker run --name` fails on any name collision), which
host ports are free, and whether a freshly `docker run` container is still
alive once the 1-second settle delay has elapsed. -/

structure DockerWorld where
  /-- Names of containers currently in `running` state. -/
  running : List String
  /-- Names of all existing containers (any state); `docker run --name n`
  errors out when `n` collides with any of these. -/
  existing : List String
  /-- Which host ports a throwaway listener can bind. -/
  portFree : Nat → Bool
  /-- Whether a container started by `docker run` is still running after the
  fixed settle delay (start commands can exit 0 yet the container crash). -/
  startsOk : String → Bool

/-- Result shape of `createAndRunContainer` (interface DockerContainerResult). -/
structure DockerContainerResult where
  containerName : String
  port : Nat
deriving DecidableEq, Repr

/-- Result shape of `checkDockerStatus` (interface DockerStatus). -/
structure DockerStatus where
  error : Bool
  message : String
deriving DecidableEq, Repr

/-- Outcome of one `execAsync` shell invocation: resolved stdout or a thrown
error. -/
inductive ExecOutcome where
  | ok (stdout : String)
  | err (msg : String)
deriving DecidableEq, Repr

/-- `isDockerInstalled`: `execAsync('docker --version')` in a try/catch —
resolves to `true` on success, catches any throw and returns `false`. -/
def isDockerInstalled (execVersion : ExecOutcome) : Bool :=
  match execVersion with
  | .ok _ => true
  | .err _ => false

/-- `isDockerRunning`: `execAsync('docker info')` in a try/catch — resolves to
`true` on success, catches any throw and returns `false`. -/
def isDockerRunning (execInfo : ExecOutcome) : Bool :=
  match execInfo with
  | .ok _ => true
  | .err _ => false

/-- The `try` block of `checkDockerStatus`: await the installed check; if not
installed return the not-installed message (the daemon check is not reached);
otherwise await the daemon check; if not running return the not-running
message; otherwise the OK result.  The two checks are passed as `Except`
computations because in the source any awaited step may throw, which the
surrounding `catch` then handles. -/
def checkDockerStatusBody (installedCheck runningCheck : Except String Bool) :
    Except String DockerStatus := do
  let installed ← installedCheck
  if !installed then
    return { error := true,
             message := "Docker is not installed on this system. Please install Docker to continue." }
  let running ← runningCheck
  if !running then
    return { error := true,
             message := "Docker is installed but not running. Please start the Docker daemon (try: sudo systemctl start docker or sudo service docker start)." }
  return { error := false, message := "Docker is installed and running successfully." }

/-- `checkDockerStatus`: the body above wrapped in the catch-all that converts
any thrown error into an error-result embedding the exception text. -/
def checkDockerStatus (installedCheck runningCheck : Except String Bool) :
    DockerStatus :=
  match checkDockerStatusBody installedCheck runningCheck with
  | .ok s => s
  | .error e =>
      { error := true,
        message := "Unexpected error while checking Docker status: " ++ e }

/-- `createContainerName` at the chars level:
`imageName.split(':')[0]` is the prefix of the image reference before the
first `':'`; `.replace(/\//g, '-')` maps every `'/'` char to `'-'`; the
suffix is then appended. -/
def createContainerNameL (image suffixToAppend : List Char) : List Char :=
  ((image.takeWhile (fun c => c != ':')).map
      (fun c => if c = '/' then '-' else c)) ++ suffixToAppend

/-- `createContainerName(imageName, suffixToAppend = "-mcp-container")`. -/
def createContainerName (imageName : String)
    (suffixToAppend : String := "-mcp-container") : String :=
  ⟨createContainerNameL imageName.data suffixToAppend.data⟩

/-- stdout of `docker ps --filter "name=<filter>" --filter "status=running"
--format "{{.Names}}"`: one line per running container whose name contains
the filter string (docker's name filter is an unanchored match), each line
terminated by a newline. -/
def dockerPsStdout (running : List String) (filterName : String) : List Char :=
  ((running.filter (fun c => decide (filterName.data <:+: c.data))).map
      (fun c => c.data ++ [Char.ofNat 10])).flatten

/-- `isContainerRunning`: runs the filtered `docker ps` and then evaluates
`stdout.trim().includes(containerName)` — a substring test on the joined
listing, not an exact-name comparison. -/
def isContainerRunning (w : DockerWorld) (containerName : String) : Bool :=
  decide (containerName.data <:+: trimList (dockerPsStdout w.running containerName))

/-- `isPortAvailable(port)`: bind a throwaway listener; resolves `true` when
the bind succeeded (the world says the port is free), `false` on bind error. -/
def isPortAvailable (w : DockerWorld) (port : Nat) : Bool :=
  w.portFree port

/-- The `for (let port = startPort; port <= maxPort; port++)` loop of
`findAvailablePort`, with the remaining number of iterations made explicit. -/
def findFrom (portFree : Nat → Bool) (port : Nat) : Nat → Option Nat
  | 0 => none
  | fuel + 1 => if portFree port then some port else findFrom portFree (port + 1) fuel

/-- `findAvailablePort(startPort, maxPort = 65535)`: linear scan over
`[startPort, maxPort]`, first free port or `null`. -/
def findAvailablePort (portFree : Nat → Bool) (startPort : Nat)
    (maxPort : Nat := 65535) : Option Nat :=
  findFrom portFree startPort (maxPort + 1 - startPort)

/-- The `execAsync('docker run --name <n> ... -p <port>:<port> -d ...')`
step: throws (resolved here as `false`) when the name collides with an
existing container; otherwise the container now exists, is running exactly
when it survives the settle delay, and the published port is taken. -/
def runContainerExec (w : DockerWorld) (containerName : String) (port : Nat) :
    Bool × DockerWorld :=
  if containerName ∈ w.existing ∨ containerName ∈ w.running then
    (false, w)
  else
    let started := w.startsOk containerName
    (true,
      { running := if started then containerName :: w.running else w.running,
        existing := containerName :: w.existing,
        portFree := fun p =>
          if started ∧ p = port then false else w.portFree p,
        startsOk := w.startsOk })

/-- `runContainer`: try { exec the run command; wait 1s; return
`isContainerRunning(containerName)` } catch { return false }. -/
def runContainer (w : DockerWorld) (imageName containerName : String)
    (port : Nat) : Bool × DockerWorld :=
  let execResult := runContainerExec w containerName port
  if execResult.1 then (isContainerRunning execResult.2 containerName, execResult.2)
  else (false, execResult.2)

/-- What a `createAndRunContainer` call produced: the returned value, the
world as the call leaves it, and how many `docker run` invocations it
issued. -/
structure OrchestratorOutcome where
  result : Option DockerContainerResult
  world : DockerWorld
  runInvocations : Nat

/-- `createAndRunContainer(imageName, port, ...)`:
derive the container name; if already running return `{containerName, port}`
with no further runtime action; otherwise pick the port (the preferred one
when free, else `findAvailablePort(port + 1)`, returning `null` when none is
found); run the container and return `{containerName, availablePort}` on
verified start, `null` otherwise.  The body sits in a catch-all try/catch and
every sub-operation already resolves instead of throwing, so the embedding is
a total function into `Option`. -/
def createAndRunContainer (w : DockerWorld) (imageName : String) (port : Nat) :
    OrchestratorOutcome :=
  let containerName := createContainerName imageName
  if isContainerRunning w containerName then
    { result := some ⟨containerName, port⟩, world := w, runInvocations := 0 }
  else
    let chosen : Option Nat :=
      if isPortAvailable w port then some port
      else findAvailablePort w.portFree (port + 1)
    match chosen with
    | none => { result := none, world := w, runInvocations := 0 }
    | some availablePort =>
      match runContainer w imageName containerName availablePort with
      | (true, w1) =>
          { result := some ⟨containerName, availablePort⟩, world := w1,
            runInvocations := 1 }
      | (false, w1) =>
          { result := none, world := w1, runInvocations := 1 }

/-! ## ApiClient (api-client source file)

One HTTP attempt (`_makeRequest`) always resolves to an `ApiResponse` — the
source wires every failure path of the request into `resolve`.  The transport
is modelled as an oracle from the global attempt index to the response that
attempt resolves with; the method, path and body are fixed throughout one
`makeRequest` call, so they are absorbed into the oracle. -/

/-- JSON-ish values: the decoded response bodies the client manipulates. -/
inductive Json where
  | null
  | bool (b : Bool)
  | num (n : Int)
  | str (s : String)
  | arr (elems : List Json)
  | obj (fields : List (String × Json))
deriving Repr

/-- JS truthiness on decoded values (`NaN` is out of scope of the `Int`
model). -/
def jsTruthy : Json → Bool
  | .null => false
  | .bool b => b
  | .num n => n != 0
  | .str s => s != ""
  | .arr _ => true
  | .obj _ => true

/-- interface ApiResponse. `data`/`error`/`statusCode` are optional. -/
structure ApiResponse where
  success : Bool
  data : Option Json := none
  error : Option String := none
  statusCode : Option Nat := none

/-- Truthiness of `response?.data` (`undefined` is falsy). -/
def dataTruthy : Option Json → Bool
  | none => false
  | some v => jsTruthy v

/-- Observable effects of the client: one `_makeRequest` attempt (numbered by
the global attempt index), or one `setTimeout` sleep of the given duration in
milliseconds. -/
inductive HttpEvent where
  | attempt (idx : Nat)
  | sleep (ms : Nat)
deriving DecidableEq, Repr

/-- The `while (retries-- >= 0)` loop of `makeRequest`.  The pre-decrement
test makes the loop body run `(retries + 1).toNat` times unless an attempt
succeeds; that iteration budget is the `fuel` argument.  `idx` is the index
the next transport attempt will get, `last` the response of the previous
attempt (initially `undefined`).  Each failing iteration — transport error,
non-2xx, or success with falsy `data` — appends a sleep of `retryInterval`
and continues; when the budget is exhausted the loop exits and returns the
last response, or the synthetic `{ success: false }` when no attempt ever
ran. -/
def makeRequestGo (transport : Nat → ApiResponse) (retryInterval : Nat)
    (idx : Nat) (fuel : Nat) (last : Option ApiResponse)
    (acc : List HttpEvent) : ApiResponse × List HttpEvent :=
  match fuel with
  | 0 => (last.getD { success := false }, acc)
  | fuel + 1 =>
    let r := transport idx
    let acc1 := acc ++ [HttpEvent.attempt idx]
    if r.success && dataTruthy r.data then (r, acc1)
    else
      makeRequestGo transport retryInterval (idx + 1) fuel (some r)
        (acc1 ++ [HttpEvent.sleep retryInterval])

/-- `makeRequest(method, endpoint, data, retries = 2, retryInterval = 5000)`,
returning the response together with the attempt/sleep trace. -/
def makeRequest (transport : Nat → ApiResponse) (retries : Int := 2)
    (retryInterval : Nat := 5000) : ApiResponse × List HttpEvent :=
  makeRequestGo transport retryInterval 0 (retries + 1).toNat none []

/-- `_isUp`, probing with the `k`-th global transport attempt:
`makeRequest('GET', undefined, null, 0)` in a try/catch, then
`response.success`.  `retries = 0` gives the loop one iteration. -/
def healthProbe (transport : Nat → ApiResponse) (k : Nat) :
    Bool × List HttpEvent :=
  let r := makeRequestGo transport 5000 k 1 none []
  (r.1.success, r.2)

/-- The `while ((timeoutSeconds--) >= 0)` loop of `isUp`, again with the
pre-decrement test turned into the iteration budget
`(timeoutSeconds + 1).toNat`: probe; return `true` on the first success;
otherwise sleep 1000 ms and continue. -/
def isUpGo (transport : Nat → ApiResponse) (k : Nat) (fuel : Nat)
    (acc : List HttpEvent) : Bool × List HttpEvent :=
  match fuel with
  | 0 => (false, acc)
  | fuel + 1 =>
    let p := healthProbe transport k
    if p.1 then (true, acc ++ p.2)
    else isUpGo transport (k + 1) fuel (acc ++ p.2 ++ [HttpEvent.sleep 1000])

/-- `isUp(timeoutSeconds = 30)`: throws on a negative budget, else runs the
polling loop. -/
def isUp (transport : Nat → ApiResponse) (timeoutSeconds : Int := 30) :
    Except String (Bool × List HttpEvent) :=
  if timeoutSeconds < 0 then
    .error "Timeout must be a positive number"
  else
    .ok (isUpGo transport 0 (timeoutSeconds + 1).toNat [])

/-! ## Entity coercion (`toMap` / `toAgentConfig` / `toTask`) -/

/-- `toMap(data)`: falsy data (including `undefined`) gives an empty map; a
non-array object gives the map of its entries; anything else throws. -/
def toMap (data : Option Json) : Except String (List (String × Json)) :=
  match data with
  | none => .ok []
  | some v =>
    if jsTruthy v then
      match v with
      | .obj fields => .ok fields
      | _ => .error "Data cannot be converted to Map"
    else
      .ok []

/-- JS `Map.prototype.get`: the value of the first matching entry, or
`undefined`. -/
def mapGet (m : List (String × Json)) (key : String) : Option Json :=
  (m.find? (fun kv => kv.1 == key)).map (fun kv => kv.2)

/-- The `x || d` defaulting the coercions apply field by field. -/
def jsOr (v : Option Json) (dflt : Json) : Json :=
  match v with
  | some x => if jsTruthy x then x else dflt
  | none => dflt

/-- interface AgentConfig, with the optional fields the coercion can leave
`undefined`. -/
structure AgentConfig where
  agentType : Option Json
  agentTags : Option Json
  sortOrder : Json
  stages : Json

/-- interface Task as produced by the coercion. -/
structure TaskEntity where
  id : Option Json
  agents : Json
  links : Json
  progress : Json
  status : Json

/-- `toAgentConfig(data)`: coerce to a map, then build the record with
`'sort-order' || 0` and `stages || {}` defaulting. -/
def toAgentConfig (data : Option Json) : Except String AgentConfig := do
  let map ← toMap data
  return { agentType := mapGet map "agent-type",
           agentTags := mapGet map "agent-tags",
           sortOrder := jsOr (mapGet map "sort-order") (Json.num 0),
           stages := jsOr (mapGet map "stages") (Json.obj []) }

/-- `toTask(data)`: coerce to a map, then build the record with
`agents || []`, `links || {}`, `progress || {}` and
`status || TaskStatuses.PENDING` defaulting. -/
def toTask (data : Option Json) : Except String TaskEntity := do
  let map ← toMap data
  return { id := mapGet map "id",
           agents := jsOr (mapGet map "agents") (Json.arr []),
           links := jsOr (mapGet map "links") (Json.obj []),
           progress := jsOr (mapGet map "progress") (Json.obj []),
           status := jsOr (mapGet map "status") (Json.str "PENDING") }

/-! ## Helper lemmas: the linear port scan -/

lemma findFrom_eq_some_iff (portFree : Nat → Bool) (fuel port p : Nat) :
    findFrom portFree port fuel = some p ↔
      port ≤ p ∧ p < port + fuel ∧ portFree p = true ∧
        ∀ q, port ≤ q → q < p → portFree q = false := by
  induction fuel generalizing port with
  | zero =>
    simp only [findFrom]
    constructor
    · intro h; cases h
    · rintro ⟨h1, h2, -, -⟩; exfalso; omega
  | succ fuel ih =>
    simp only [findFrom]
    by_cases hfree : portFree port
    · simp only [hfree, if_true, Option.some.injEq]
      constructor
      · rintro rfl
        exact ⟨Nat.le_refl _, by omega, hfree, fun q hq1 hq2 => by exfalso; omega⟩
      · rintro ⟨h1, -, h3, h4⟩
        rcases Nat.eq_or_lt_of_le h1 with h | h
        · exact h
        · have := h4 port (Nat.le_refl _) h
          rw [hfree] at this; cases this
    · have hfree' : portFree port = false := by
        cases hh : portFree port
        · rfl
        · exact absurd hh hfree
      rw [if_neg hfree, ih]
      constructor
      · rintro ⟨h1, h2, h3, h4⟩
        refine ⟨by omega, by omega, h3, fun q hq1 hq2 => ?_⟩
        rcases Nat.eq_or_lt_of_le hq1 with h | h
        · rw [← h]; exact hfree'
        · exact h4 q h hq2
      · rintro ⟨h1, h2, h3, h4⟩
        have hne : p ≠ port := by
          rintro rfl; rw [h3] at hfree'; cases hfree'
        refine ⟨by omega, by omega, h3, fun q hq1 hq2 => h4 q (by omega) hq2⟩

lemma findFrom_eq_none_iff (portFree : Nat → Bool) (fuel port : Nat) :
    findFrom portFree port fuel = none ↔
      ∀ q, port ≤ q → q < port + fuel → portFree q = false := by
  induction fuel generalizing port with
  | zero =>
    simp only [findFrom]
    constructor
    · intro _ q hq1 hq2; exfalso; omega
    · intro _; trivial
  | succ fuel ih =>
    simp only [findFrom]
    by_cases hfree : portFree port
    · simp only [hfree, if_true]
      constructor
      · intro h; cases h
      · intro h
        have := h port (Nat.le_refl _) (by omega)
        rw [hfree] at this; cases this
    · have hfree' : portFree port = false := by
        cases hh : portFree port
        · rfl
        · exact absurd hh hfree
      rw [if_neg hfree, ih]
      constructor
      · intro h q hq1 hq2
        rcases Nat.eq_or_lt_of_le hq1 with heq | hlt
        · rw [← heq]; exact hfree'
        · exact h q hlt (by omega)
      · intro h q hq1 hq2
        exact h q (by omega) (by omega)

lemma findAvailablePort_eq_some_iff (portFree : Nat → Bool)
    (startPort maxPort p : Nat) :
    findAvailablePort portFree startPort maxPort = some p ↔
      startPort ≤ p ∧ p ≤ maxPort ∧ portFree p = true ∧
        ∀ q, startPort ≤ q → q < p → portFree q = false := by
  unfold findAvailablePort
  rw [findFrom_eq_some_iff]
  constructor
  · rintro ⟨h1, h2, h3, h4⟩; exact ⟨h1, by omega, h3, h4⟩
  · rintro ⟨h1, h2, h3, h4⟩; exact ⟨h1, by omega, h3, h4⟩

lemma findAvailablePort_eq_none_iff (portFree : Nat → Bool)
    (startPort maxPort : Nat) :
    findAvailablePort portFree startPort maxPort = none ↔
      ∀ q, startPort ≤ q → q ≤ maxPort → portFree q = false := by
  unfold findAvailablePort
  rw [findFrom_eq_none_iff]
  constructor
  · intro h q hq1 hq2; exact h q hq1 (by omega)
  · intro h q hq1 hq2; exact h q hq1 (by omega)

/-! ## Claim theorems: C3, C5, C7 -/

/-- C3.  Lowest-free-port determinism: `findAvailablePort(startPort, maxPort)`
scans linearly from `startPort` upward inclusive; it returns `some p` exactly
when `p` is the lowest-numbered available port in `[startPort, maxPort]`, and
`none` exactly when every port in that range is occupied; in particular with
`startPort` and `startPort+1` occupied and `startPort+2` free it returns
`startPort+2`. -/
theorem findAvailablePort_lowest_free (portFree : Nat → Bool)
    (startPort maxPort : Nat) :
    (∀ p, findAvailablePort portFree startPort maxPort = some p ↔
        startPort ≤ p ∧ p ≤ maxPort ∧ portFree p = true ∧
          ∀ q, startPort ≤ q → q < p → portFree q = false) ∧
    (findAvailablePort portFree startPort maxPort = none ↔
        ∀ q, startPort ≤ q → q ≤ maxPort → portFree q = false) ∧
    (portFree startPort = false → portFree (startPort + 1) = false →
      portFree (startPort + 2) = true → startPort + 2 ≤ maxPort →
      findAvailablePort portFree startPort maxPort = some (startPort + 2)) := by
  refine ⟨fun p => findAvailablePort_eq_some_iff portFree startPort maxPort p,
    findAvailablePort_eq_none_iff portFree startPort maxPort, ?_⟩
  intro h0 h1 h2 hle
  rw [findAvailablePort_eq_some_iff]
  refine ⟨by omega, hle, h2, fun q hq1 hq2 => ?_⟩
  have : q = startPort ∨ q = startPort + 1 := by omega
  rcases this with rfl | rfl
  · exact h0
  · exact h1

/-- Witness for C3: ports 5000 and 5001 occupied, 5002 free — the scan from
5000 returns 5002. -/
theorem findAvailablePort_lowest_free_witness :
    findAvailablePort (fun p => decide (5002 ≤ p)) 5000 65535 = some 5002 :=
  (findAvailablePort_lowest_free (fun p => decide (5002 ≤ p)) 5000 65535).2.2
    (by decide) (by decide) (by decide) (by decide)

/-- C5.  `checkDockerStatus` is a total status oracle: a failed
installed-check short-circuits to the not-installed remediation message (for
every daemon-check computation, which is therefore not consulted); a failed
daemon-check yields the not-running remediation message; both checks passing
yields the non-error OK result; and a check that throws is caught and
reported as an error result embedding the exception text — the function
returns a `DockerStatus` for every outcome of the two checks rather than
propagating an exception.  In terms of the underlying shell invocations, the
result is non-error exactly when both `docker --version` and `docker info`
resolved. -/
theorem checkDockerStatus_total_oracle :
    (∀ r : Except String Bool,
        checkDockerStatus (.ok false) r =
          ⟨true, "Docker is not installed on this system. Please install Docker to continue."⟩) ∧
    (checkDockerStatus (.ok true) (.ok false) =
        ⟨true, "Docker is installed but not running. Please start the Docker daemon (try: sudo systemctl start docker or sudo service docker start)."⟩) ∧
    (checkDockerStatus (.ok true) (.ok true) =
        ⟨false, "Docker is installed and running successfully."⟩) ∧
    (∀ e r, checkDockerStatus (.error e) r =
        ⟨true, "Unexpected error while checking Docker status: " ++ e⟩) ∧
    (∀ e, checkDockerStatus (.ok true) (.error e) =
        ⟨true, "Unexpected error while checking Docker status: " ++ e⟩) ∧
    (∀ o1 o2 : ExecOutcome,
        (checkDockerStatus (.ok (isDockerInstalled o1))
            (.ok (isDockerRunning o2))).error = false ↔
          (∃ s, o1 = .ok s) ∧ (∃ s, o2 = .ok s)) := by
  refine ⟨fun r => by cases r <;> rfl, rfl, rfl, fun e r => by cases r <;> rfl,
    fun e => rfl, fun o1 o2 => ?_⟩
  cases o1 <;> cases o2 <;>
    simp [checkDockerStatus, checkDockerStatusBody, isDockerInstalled,
      isDockerRunning, Bind.bind, Except.bind, Pure.pure, Except.pure]

/-! ## Helper lemmas: `split(':')[0]` -/

lemma takeWhile_of_no_colon (l : List Char) (h : ':' ∉ l) :
    l.takeWhile (fun c => c != ':') = l := by
  induction l with
  | nil => rfl
  | cons a l ih =>
    have ha : (a != ':') = true := by
      simp only [bne_iff_ne, ne_eq, decide_eq_true_eq]
      rintro rfl
      exact h (List.mem_cons_self _ _)
    simp only [List.takeWhile_cons, ha, if_true]
    rw [ih (fun hm => h (List.mem_cons_of_mem _ hm))]

lemma takeWhile_append_colon (l1 l2 : List Char) (h : ':' ∉ l1) :
    (l1 ++ ':' :: l2).takeWhile (fun c => c != ':') = l1 := by
  induction l1 with
  | nil => simp [List.takeWhile_cons]
  | cons a l ih =>
    have ha : (a != ':') = true := by
      simp only [bne_iff_ne, ne_eq, decide_eq_true_eq]
      rintro rfl
      exact h (List.mem_cons_self _ _)
    simp only [List.cons_append, List.takeWhile_cons, ha, if_true]
    rw [ih (fun hm => h (List.mem_cons_of_mem _ hm))]

/-- C7.  Deterministic container identity: `createContainerName` is a pure
function that strips the version tag after the first `':'` (appending a
`":tag"` part to a tag-free image reference does not change the result),
replaces every `'/'` with `'-'`, and appends the fixed suffix
`"-mcp-container"`; in particular image `"acme/svc:1.2"` derives identity
`"acme-svc-mcp-container"`. -/
theorem createContainerName_spec :
    createContainerName "acme/svc:1.2" = "acme-svc-mcp-container" ∧
    (∀ name tag : String, ':' ∉ name.data →
        createContainerName (name ++ ":" ++ tag) = createContainerName name) ∧
    (∀ name : String, ':' ∉ name.data →
        (createContainerName name).data =
          name.data.map (fun c => if c = '/' then '-' else c) ++
            "-mcp-container".data) := by
  refine ⟨by decide, fun name tag h => ?_, fun name h => ?_⟩
  · cases name with
    | mk l =>
      cases tag with
      | mk m =>
        show String.mk (createContainerNameL ((l ++ ':' :: []) ++ m) _) =
          String.mk (createContainerNameL l _)
        unfold createContainerNameL
        rw [List.append_assoc, List.singleton_append, takeWhile_append_colon _ _ h,
          takeWhile_of_no_colon _ h]
  · show createContainerNameL name.data _ = _
    unfold createContainerNameL
    rw [takeWhile_of_no_colon _ h]

/-- Witness for C7: the tag-stripping clauses applied at the concrete image
reference `"acme/svc"` with tag `"1.2"`. -/
theorem createContainerName_spec_witness :
    createContainerName ("acme/svc" ++ ":" ++ "1.2") = createContainerName "acme/svc" ∧
    (createContainerName "acme/svc").data =
      "acme/svc".data.map (fun c => if c = '/' then '-' else c) ++
        "-mcp-container".data :=
  ⟨createContainerName_spec.2.1 "acme/svc" "1.2" (by decide),
   createContainerName_spec.2.2 "acme/svc" (by decide)⟩

/-! ## Claim theorems: C2, C4, C8 -/

lemma makeRequestGo_fail_succ (t : Nat → ApiResponse) (ri idx fuel : Nat)
    (last : Option ApiResponse) (acc : List HttpEvent)
    (hf : ((t idx).success && dataTruthy (t idx).data) = false) :
    makeRequestGo t ri idx (fuel + 1) last acc =
      makeRequestGo t ri (idx + 1) fuel (some (t idx))
        (acc ++ [HttpEvent.attempt idx, HttpEvent.sleep ri]) := by
  rw [makeRequestGo]
  simp only [hf, Bool.false_eq_true, if_false, List.append_assoc]
  rfl

/-- C2.  Bounded retry: against a transport in which every attempt fails
(transport error, non-2xx, or 2xx with empty body — all of which make
`response.success && response?.data` falsy), `makeRequest` with `retries = 2`
performs exactly three attempts (the initial attempt plus two retries),
waiting `retryInterval` between consecutive attempts (the code also waits
once more after the final attempt before returning), and then returns the
third (last) attempt's response; the synthetic `{success: false}` is only
produced when no attempt ran at all. -/
theorem makeRequest_retry_bound (transport : Nat → ApiResponse)
    (retryInterval : Nat)
    (h : ∀ n, ((transport n).success && dataTruthy (transport n).data) = false) :
    makeRequest transport 2 retryInterval =
      (transport 2,
        [HttpEvent.attempt 0, HttpEvent.sleep retryInterval,
         HttpEvent.attempt 1, HttpEvent.sleep retryInterval,
         HttpEvent.attempt 2, HttpEvent.sleep retryInterval]) := by
  unfold makeRequest
  show makeRequestGo transport retryInterval 0 (2 + 1) none [] = _
  rw [makeRequestGo_fail_succ _ _ _ _ _ _ (h 0)]
  show makeRequestGo transport retryInterval 1 (1 + 1) _ _ = _
  rw [makeRequestGo_fail_succ _ _ _ _ _ _ (h 1)]
  show makeRequestGo transport retryInterval 2 (0 + 1) _ _ = _
  rw [makeRequestGo_fail_succ _ _ _ _ _ _ (h 2)]
  rfl

/-- Witness for C2: the always-transport-erroring transport — three attempts,
the last response returned. -/
theorem makeRequest_retry_bound_witness :
    makeRequest (fun _ => { success := false, error := some "Request error: down" }) 2 5000 =
      ({ success := false, error := some "Request error: down" },
        [HttpEvent.attempt 0, HttpEvent.sleep 5000, HttpEvent.attempt 1,
         HttpEvent.sleep 5000, HttpEvent.attempt 2, HttpEvent.sleep 5000]) :=
  makeRequest_retry_bound
    (fun _ => { success := false, error := some "Request error: down" }) 5000
    (fun _ => rfl)

/-- C4 counterexample.  The claim states `isUp(0)` executes zero sleep/delay
operations in either outcome; but with a transport whose single probe fails,
`isUp(0)` returns `false` only after a `retryInterval` wait inside the
request helper and the one-second wait of the polling loop — two sleeps, not
zero. -/
theorem isUp_zero_budget_cex :
    isUp (fun _ => { success := false, error := some "Request error: down" }) 0 =
      .ok (false,
        [HttpEvent.attempt 0, HttpEvent.sleep 5000, HttpEvent.sleep 1000]) ∧
    ([HttpEvent.attempt 0, HttpEvent.sleep 5000, HttpEvent.sleep 1000].filter
        (fun e => match e with | .sleep _ => true | _ => false)).length ≠ 0 := by
  exact ⟨rfl, by decide⟩

/-- One probe, in closed form: it reports the attempt's `success` flag, and
its trace is the bare attempt when the attempt succeeded with a truthy body,
or the attempt followed by the request helper's 5000 ms retry wait
otherwise. -/
lemma healthProbe_eq (t : Nat → ApiResponse) (k : Nat) :
    healthProbe t k =
      ((t k).success,
        if ((t k).success && dataTruthy (t k).data) then [HttpEvent.attempt k]
        else [HttpEvent.attempt k, HttpEvent.sleep 5000]) := by
  unfold healthProbe
  show (let r := makeRequestGo t 5000 k (0 + 1) none []; (r.1.success, r.2)) = _
  rw [makeRequestGo]
  by_cases hsd : ((t k).success && dataTruthy (t k).data) = true
  · simp only [hsd, if_true]
    rfl
  · have hsd' : ((t k).success && dataTruthy (t k).data) = false :=
      Bool.eq_false_iff.mpr hsd
    simp only [hsd', Bool.false_eq_true, if_false]
    rw [makeRequestGo]
    simp only [Option.getD_some]
    rfl

/-- C4 (amended).  `isUp(0)` performs exactly one liveness probe (one
transport attempt) and returns `true` if and only if that first probe
succeeds; it executes zero sleeps only when the probe succeeds with a truthy
body — a successful probe with an empty body incurs the request helper's
retry wait, and a failed probe additionally incurs the poll loop's one-second
wait before `false` is returned. -/
theorem isUp_zero_budget (transport : Nat → ApiResponse) :
    isUp transport 0 =
      .ok ((transport 0).success,
        if ((transport 0).success && dataTruthy (transport 0).data) then
          [HttpEvent.attempt 0]
        else if (transport 0).success then
          [HttpEvent.attempt 0, HttpEvent.sleep 5000]
        else
          [HttpEvent.attempt 0, HttpEvent.sleep 5000, HttpEvent.sleep 1000]) := by
  unfold isUp
  rw [if_neg (by decide)]
  show Except.ok (isUpGo transport 0 (0 + 1) []) = _
  rw [isUpGo]
  rw [healthProbe_eq]
  by_cases hsd : ((transport 0).success && dataTruthy (transport 0).data) = true
  · have hs : (transport 0).success = true := (Bool.and_eq_true_iff.mp hsd).1
    simp only [hsd, hs, if_true]
    rfl
  · have hsd' : ((transport 0).success && dataTruthy (transport 0).data) = false :=
      Bool.eq_false_iff.mpr hsd
    simp only [hsd', Bool.false_eq_true, if_false]
    by_cases hs : (transport 0).success = true
    · simp only [hs, if_true]
      rfl
    · have hs' : (transport 0).success = false := Bool.eq_false_iff.mpr hs
      simp only [hs', Bool.false_eq_true, if_false]
      rw [isUpGo]
      rfl

/-- C8.  Defensive entity coercion: for every decoded object body, the
coercions `toAgentConfig`/`toTask` succeed (they do not throw because of an
absent field) and apply field-by-field defaulting — a missing `'sort-order'`
resolves to `0`, missing `stages` to the empty mapping, and a missing task
`status` to `PENDING`. -/
theorem entity_coercion_defaults (fields : List (String × Json)) :
    (∃ cfg, toAgentConfig (some (Json.obj fields)) = .ok cfg) ∧
    (∃ task, toTask (some (Json.obj fields)) = .ok task) ∧
    (mapGet fields "sort-order" = none →
      Except.map AgentConfig.sortOrder (toAgentConfig (some (Json.obj fields))) =
        .ok (Json.num 0)) ∧
    (mapGet fields "stages" = none →
      Except.map AgentConfig.stages (toAgentConfig (some (Json.obj fields))) =
        .ok (Json.obj [])) ∧
    (mapGet fields "status" = none →
      Except.map TaskEntity.status (toTask (some (Json.obj fields))) =
        .ok (Json.str "PENDING")) := by
  have hmap : toMap (some (Json.obj fields)) = .ok fields := rfl
  refine ⟨⟨{ agentType := mapGet fields "agent-type",
             agentTags := mapGet fields "agent-tags",
             sortOrder := jsOr (mapGet fields "sort-order") (Json.num 0),
             stages := jsOr (mapGet fields "stages") (Json.obj []) }, rfl⟩,
          ⟨{ id := mapGet fields "id",
             agents := jsOr (mapGet fields "agents") (Json.arr []),
             links := jsOr (mapGet fields "links") (Json.obj []),
             progress := jsOr (mapGet fields "progress") (Json.obj []),
             status := jsOr (mapGet fields "status") (Json.str "PENDING") }, rfl⟩,
          ?_, ?_, ?_⟩
  · intro h
    unfold toAgentConfig
    rw [hmap]
    show Except.map AgentConfig.sortOrder (.ok _) = _
    simp only [Except.map, jsOr, h]
  · intro h
    unfold toAgentConfig
    rw [hmap]
    show Except.map AgentConfig.stages (.ok _) = _
    simp only [Except.map, jsOr, h]
  · intro h
    unfold toTask
    rw [hmap]
    show Except.map TaskEntity.status (.ok _) = _
    simp only [Except.map, jsOr, h]

/-- Witness for C8: the empty object body — every field absent, every default
applied. -/
theorem entity_coercion_defaults_witness :
    Except.map AgentConfig.sortOrder (toAgentConfig (some (Json.obj []))) =
        .ok (Json.num 0) ∧
    Except.map AgentConfig.stages (toAgentConfig (some (Json.obj []))) =
        .ok (Json.obj []) ∧
    Except.map TaskEntity.status (toTask (some (Json.obj []))) =
        .ok (Json.str "PENDING") := by
  obtain ⟨-, -, h3, h4, h5⟩ := entity_coercion_defaults []
  exact ⟨h3 rfl, h4 rfl, h5 rfl⟩

/-! ## Helper lemmas: substring discovery through the trimmed listing -/

lemma infix_dropWhile_of_forall (p : Char → Bool) {x : List Char}
    (l : List Char) (hx : x ≠ []) (hall : ∀ a ∈ x, p a = false)
    (h : x <:+: l) : x <:+: l.dropWhile p := by
  obtain ⟨s, t, rfl⟩ := h
  induction s with
  | nil =>
    cases x with
    | nil => exact absurd rfl hx
    | cons a x2 =>
      have ha : p a = false := hall a (List.mem_cons_self _ _)
      simp only [List.nil_append, List.cons_append, List.dropWhile_cons, ha,
        Bool.false_eq_true, if_false]
      exact ⟨[], t, by simp⟩
  | cons b s2 ih =>
    by_cases hb : p b = true
    · simpa only [List.cons_append, List.dropWhile_cons, hb, if_true] using ih
    · have hb' : p b = false := Bool.eq_false_iff.mpr hb
      simp only [List.cons_append, List.dropWhile_cons, hb',
        Bool.false_eq_true, if_false]
      exact ⟨b :: s2, t, by simp⟩

lemma infix_trimList_of_forall {x : List Char} (l : List Char) (hx : x ≠ [])
    (hall : ∀ a ∈ x, a.isWhitespace = false) (h : x <:+: l) :
    x <:+: trimList l := by
  have h1 : x <:+: l.dropWhile Char.isWhitespace :=
    infix_dropWhile_of_forall Char.isWhitespace l hx hall h
  have h2 : x.reverse <:+: (l.dropWhile Char.isWhitespace).reverse :=
    List.reverse_infix.mpr h1
  have h3 : x.reverse <:+:
      ((l.dropWhile Char.isWhitespace).reverse.dropWhile Char.isWhitespace) :=
    infix_dropWhile_of_forall Char.isWhitespace _
      (by simpa using hx) (fun a ha => hall a (List.mem_reverse.mp ha)) h2
  have h4 := List.reverse_infix.mpr h3
  simpa [trimList] using h4

lemma infix_dockerPsStdout {name : String} {c : String} (running : List String)
    (hc : c ∈ running) (hinf : name.data <:+: c.data) :
    name.data <:+: dockerPsStdout running name := by
  have hcfil : c ∈ running.filter (fun d => decide (name.data <:+: d.data)) :=
    List.mem_filter.mpr ⟨hc, by simpa using hinf⟩
  obtain ⟨l1, l2, hsplit⟩ := List.append_of_mem hcfil
  obtain ⟨u, v, huv⟩ := hinf
  unfold dockerPsStdout
  rw [hsplit]
  refine ⟨(l1.map (fun d => d.data ++ [Char.ofNat 10])).flatten ++ u,
    v ++ [Char.ofNat 10] ++
      (l2.map (fun d => d.data ++ [Char.ofNat 10])).flatten, ?_⟩
  simp only [List.map_append, List.map_cons, List.flatten_append,
    List.flatten_cons, ← huv]
  simp [List.append_assoc]

/-! ## Claim C9 -/

/-- C9 counterexample.  The claim asserts `isContainerRunning(name)` returns
`true` only when a running container's name equals the queried name exactly,
and that a proper-substring match does not count; but with the single running
container `"acme-svc-mcp-container-old"`, querying
`"acme-svc-mcp-container"` returns `true` although no running container has
exactly that name — the filtered-listing `includes` test accepts any
supername. -/
theorem isContainerRunning_exact_match_cex :
    isContainerRunning
        { running := ["acme-svc-mcp-container-old"],
          existing := ["acme-svc-mcp-container-old"],
          portFree := fun _ => true, startsOk := fun _ => true }
        "acme-svc-mcp-container" = true ∧
    "acme-svc-mcp-container" ∉ ["acme-svc-mcp-container-old"] := by
  exact ⟨by decide, by decide⟩

/-- C9 (amended).  Substring discovery: for a non-empty, whitespace-free
queried name, `isContainerRunning(name)` returns `true` if and only if some
running container's name contains the queried name as a substring — exact
matches count, but so do proper supernames. -/
theorem isContainerRunning_iff (w : DockerWorld) (name : String)
    (hne : name.data ≠ [])
    (hws : ∀ a ∈ name.data, a.isWhitespace = false) :
    isContainerRunning w name = true ↔
      ∃ c ∈ w.running, name.data <:+: c.data := by
  unfold isContainerRunning
  rw [decide_eq_true_iff]
  constructor
  · intro h
    rcases hfil : w.running.filter (fun d => decide (name.data <:+: d.data)) with
      - | ⟨c, cs⟩
    · exfalso
      rw [show dockerPsStdout w.running name = [] by
            unfold dockerPsStdout; rw [hfil]; rfl] at h
      rw [show trimList [] = [] from rfl] at h
      rw [ List.infix_nil] at h
      exact hne h
    · have hcmem : c ∈ w.running.filter (fun d => decide (name.data <:+: d.data)) := by
        rw [hfil]; exact List.mem_cons_self _ _
      rcases List.mem_filter.mp hcmem with ⟨hcr, hcp⟩
      exact ⟨c, hcr, by simpa using hcp⟩
  · rintro ⟨c, hc, hinf⟩
    exact infix_trimList_of_forall _ hne hws
      (infix_dockerPsStdout w.running hc hinf)

/-- Witness for C9 (amended): a world whose only running container is exactly
the queried name — discovery succeeds. -/
theorem isContainerRunning_iff_witness :
    isContainerRunning
        { running := ["abc"], existing := ["abc"],
          portFree := fun _ => true, startsOk := fun _ => true } "abc" = true :=
  (isContainerRunning_iff
      { running := ["abc"], existing := ["abc"],
        portFree := fun _ => true, startsOk := fun _ => true } "abc"
      (by decide) (by decide)).mpr
    ⟨"abc", by simp, List.infix_refl _⟩

/-! ## Helper lemmas: the orchestrator -/

/-- The world `runContainerExec` leaves behind after a collision-free
`docker run` of `containerName` publishing `port`. -/
def startedWorld (w : DockerWorld) (containerName : String) (port : Nat) :
    DockerWorld :=
  { running := if w.startsOk containerName then containerName :: w.running
               else w.running,
    existing := containerName :: w.existing,
    portFree := fun p =>
      if w.startsOk containerName ∧ p = port then false else w.portFree p,
    startsOk := w.startsOk }

lemma runContainer_eq (w : DockerWorld) (imageName containerName : String)
    (port : Nat) :
    runContainer w imageName containerName port =
      if containerName ∈ w.existing ∨ containerName ∈ w.running then (false, w)
      else
        (isContainerRunning (startedWorld w containerName port) containerName,
          startedWorld w containerName port) := by
  unfold runContainer runContainerExec startedWorld
  by_cases hc : containerName ∈ w.existing ∨ containerName ∈ w.running
  · simp only [if_pos hc]
    rfl
  · simp only [if_neg hc]
    rfl

lemma runContainer_conflict (w : DockerWorld) (imageName containerName : String)
    (port : Nat) (h : containerName ∈ w.existing ∨ containerName ∈ w.running) :
    runContainer w imageName containerName port = (false, w) := by
  rw [runContainer_eq, if_pos h]

lemma runContainer_true_running (w : DockerWorld)
    (imageName containerName : String) (port : Nat) (w1 : DockerWorld)
    (h : runContainer w imageName containerName port = (true, w1)) :
    isContainerRunning w1 containerName = true := by
  rw [runContainer_eq] at h
  by_cases hc : containerName ∈ w.existing ∨ containerName ∈ w.running
  · rw [if_pos hc] at h
    simp at h
  · rw [if_neg hc] at h
    simp only [Prod.mk.injEq] at h
    rcases h with ⟨h1, h2⟩
    rw [← h2]
    exact h1

/-- Step 5–6 of `createAndRunContainer`: the outcome as a function of what
`runContainer` returned. -/
def afterRun (runResult : Bool × DockerWorld) (containerName : String)
    (p : Nat) : OrchestratorOutcome :=
  match runResult with
  | (true, w1) => ⟨some ⟨containerName, p⟩, w1, 1⟩
  | (false, w1) => ⟨none, w1, 1⟩

/-- Steps 4–6 of `createAndRunContainer` as a function of the chosen port
(`null` propagates the port-exhaustion failure). -/
def afterPort (w : DockerWorld) (imageName : String) :
    Option Nat → OrchestratorOutcome
  | none => ⟨none, w, 0⟩
  | some p =>
    afterRun (runContainer w imageName (createContainerName imageName) p)
      (createContainerName imageName) p

lemma afterRun_true (w1 : DockerWorld) (containerName : String) (p : Nat) :
    afterRun (true, w1) containerName p = ⟨some ⟨containerName, p⟩, w1, 1⟩ := rfl

lemma afterRun_false (w1 : DockerWorld) (containerName : String) (p : Nat) :
    afterRun (false, w1) containerName p = ⟨none, w1, 1⟩ := rfl

lemma afterPort_none (w : DockerWorld) (imageName : String) :
    afterPort w imageName none = ⟨none, w, 0⟩ := rfl

lemma afterPort_some (w : DockerWorld) (imageName : String) (p : Nat) :
    afterPort w imageName (some p) =
      afterRun (runContainer w imageName (createContainerName imageName) p)
        (createContainerName imageName) p := rfl

/-- `createAndRunContainer` with its intermediate `let`s inlined: the exact
case tree of the source function. -/
lemma createAndRun_eq_cases (w : DockerWorld) (imageName : String) (port : Nat) :
    createAndRunContainer w imageName port =
      if isContainerRunning w (createContainerName imageName) then
        ⟨some ⟨createContainerName imageName, port⟩, w, 0⟩
      else
        afterPort w imageName
          (if isPortAvailable w port then some port
           else findAvailablePort w.portFree (port + 1)) := by
  unfold createAndRunContainer
  by_cases hrun : isContainerRunning w (createContainerName imageName) = true
  · simp only [if_pos hrun]
  · simp only [if_neg hrun]
    rcases hch : (if isPortAvailable w port then some port
        else findAvailablePort w.portFree (port + 1)) with - | p
    · rfl
    · rw [afterPort_some]
      dsimp only
      rcases hrc : runContainer w imageName (createContainerName imageName) p with
        ⟨flag, w1⟩
      cases flag
      · rfl
      · rfl

lemma createAndRun_already (w : DockerWorld) (imageName : String) (port : Nat)
    (h : isContainerRunning w (createContainerName imageName) = true) :
    createAndRunContainer w imageName port =
      ⟨some ⟨createContainerName imageName, port⟩, w, 0⟩ := by
  rw [createAndRun_eq_cases, if_pos h]

lemma createAndRun_runs_le_one (w : DockerWorld) (imageName : String)
    (port : Nat) :
    (createAndRunContainer w imageName port).runInvocations ≤ 1 := by
  rw [createAndRun_eq_cases]
  by_cases hrun : isContainerRunning w (createContainerName imageName) = true
  · rw [if_pos hrun]
    exact Nat.zero_le 1
  · rw [if_neg hrun]
    rcases hch : (if isPortAvailable w port then some port
        else findAvailablePort w.portFree (port + 1)) with - | p
    · exact Nat.zero_le 1
    · rw [afterPort_some]
      rcases hrc : runContainer w imageName (createContainerName imageName) p with
        ⟨flag, w1⟩
      cases flag
      · exact Nat.le_refl 1
      · exact Nat.le_refl 1

lemma createAndRun_result_some (w : DockerWorld) (imageName : String)
    (port : Nat) (h1 : DockerContainerResult)
    (h : (createAndRunContainer w imageName port).result = some h1) :
    isContainerRunning (createAndRunContainer w imageName port).world
        (createContainerName imageName) = true ∧
    h1.containerName = createContainerName imageName := by
  rw [createAndRun_eq_cases] at h ⊢
  by_cases hrun : isContainerRunning w (createContainerName imageName) = true
  · rw [if_pos hrun] at h ⊢
    simp only [Option.some.injEq] at h
    exact ⟨hrun, by rw [← h]⟩
  · rw [if_neg hrun] at h ⊢
    rcases hch : (if isPortAvailable w port then some port
        else findAvailablePort w.portFree (port + 1)) with - | p
    · rw [hch] at h
      rw [afterPort_none] at h
      simp at h
    · rw [hch] at h
      rw [afterPort_some] at h ⊢
      rcases hrc : runContainer w imageName (createContainerName imageName) p with
        ⟨flag, w1⟩
      rw [hrc] at h
      cases flag
      · rw [afterRun_false] at h
        simp at h
      · rw [afterRun_true] at h ⊢
        simp only [Option.some.injEq] at h
        exact ⟨runContainer_true_running w imageName _ p w1 hrc, by rw [← h]⟩

/-! ## Claim C1 -/

/-- The world of the C1 counterexample: nothing running, nothing existing,
port 5000 occupied by some other process, containers start cleanly. -/
def portShadowWorld : DockerWorld :=
  { running := [], existing := [], portFree := fun p => p != 5000,
    startsOk := fun _ => true }

/-- C1 counterexample.  The claim's consequence — two successive calls with
the same image and port return identical handles — fails when the preferred
port is occupied throughout: the first call starts the container on the
fallback port 5001 and returns `{name, 5001}`, while the second call finds
the container running and returns `{name, port: 5000}`, a different
handle. -/
theorem createAndRunContainer_idempotent_cex :
    (createAndRunContainer portShadowWorld "acme/svc:1.2" 5000).result =
        some ⟨"acme-svc-mcp-container", 5001⟩ ∧
    (createAndRunContainer
        (createAndRunContainer portShadowWorld "acme/svc:1.2" 5000).world
        "acme/svc:1.2" 5000).result =
      some ⟨"acme-svc-mcp-container", 5000⟩ ∧
    (⟨"acme-svc-mcp-container", 5001⟩ : DockerContainerResult) ≠
      ⟨"acme-svc-mcp-container", 5000⟩ := by
  refine ⟨rfl, rfl, by decide⟩

/-- C1 (amended).  Idempotent start-up: if the runtime already reports a
running container with the derived name, `createAndRunContainer` returns
`{name, port: preferredPort}` immediately, leaving the world unchanged and
issuing no `run` invocation.  Whenever a call returns a handle, the
immediately following call with the same image and port issues no `run`
invocation and returns `{name, port: preferredPort}` — so two successive
calls perform at most one `run` invocation in total — and the two handles
are identical exactly when the first call bound the preferred port (when the
orchestrator fell back to an alternative port, the second call's handle
differs, the port-assumption gap the spec flags). -/
theorem createAndRunContainer_idempotent (w : DockerWorld) (imageName : String)
    (port : Nat) :
    (isContainerRunning w (createContainerName imageName) = true →
      createAndRunContainer w imageName port =
        ⟨some ⟨createContainerName imageName, port⟩, w, 0⟩) ∧
    (∀ h1 : DockerContainerResult,
      (createAndRunContainer w imageName port).result = some h1 →
        createAndRunContainer (createAndRunContainer w imageName port).world
            imageName port =
          ⟨some ⟨createContainerName imageName, port⟩,
            (createAndRunContainer w imageName port).world, 0⟩ ∧
        (createAndRunContainer w imageName port).runInvocations ≤ 1 ∧
        h1.containerName = createContainerName imageName ∧
        (h1 = ⟨createContainerName imageName, port⟩ ↔ h1.port = port)) := by
  refine ⟨createAndRun_already w imageName port, ?_⟩
  intro h1 hres
  obtain ⟨hw, hname⟩ := createAndRun_result_some w imageName port h1 hres
  refine ⟨createAndRun_already _ imageName port hw,
    createAndRun_runs_le_one w imageName port, hname, ?_, ?_⟩
  · intro he
    rw [he]
  · intro hp
    cases h1 with
    | mk n q =>
      simp only at hname hp
      rw [hname, hp]

/-- The world of the C1 witness: the derived container is already running. -/
def runningWorld : DockerWorld :=
  { running := ["acme-svc-mcp-container"], existing := ["acme-svc-mcp-container"],
    portFree := fun _ => true, startsOk := fun _ => true }

/-- Witness for C1 (amended): with the container already running, the call
returns `{name, 5000}` immediately with zero `run` invocations. -/
theorem createAndRunContainer_idempotent_witness :
    createAndRunContainer runningWorld "acme/svc:1.2" 5000 =
      ⟨some ⟨"acme-svc-mcp-container", 5000⟩, runningWorld, 0⟩ ∧
    (createAndRunContainer runningWorld "acme/svc:1.2" 5000).runInvocations ≤ 1 := by
  have h := createAndRunContainer_idempotent runningWorld "acme/svc:1.2" 5000
  have h1 := h.1 (by decide)
  refine ⟨h1, ?_⟩
  have h2 := h.2 ⟨createContainerName "acme/svc:1.2", 5000⟩ (by rw [h1])
  exact h2.2.1

/-! ## Claim C6 -/

/-- C6.  Orchestrator failure semantics: `createAndRunContainer` is a total
function into an optional handle (the source wraps the body in a catch-all
and every sub-operation resolves rather than throws).  When the container is
not already running: if the preferred port is occupied and no free port is
found from `preferredPort + 1` upward, it returns `null` without issuing a
`run` (PORT_EXHAUSTED); if a port was chosen but the post-start
re-verification does not show the container running, it returns `null`
(START_FAILED); and if the preferred port is occupied but a free port exists
and the start verifies, the returned handle carries that port — the first
free port found from `preferredPort + 1`. -/
theorem createAndRunContainer_failure_semantics (w : DockerWorld)
    (imageName : String) (port : Nat) :
    (isContainerRunning w (createContainerName imageName) = false →
      isPortAvailable w port = false →
      findAvailablePort w.portFree (port + 1) = none →
      createAndRunContainer w imageName port = ⟨none, w, 0⟩) ∧
    (∀ p, isContainerRunning w (createContainerName imageName) = false →
      (if isPortAvailable w port then some port
        else findAvailablePort w.portFree (port + 1)) = some p →
      (runContainer w imageName (createContainerName imageName) p).1 = false →
      (createAndRunContainer w imageName port).result = none) ∧
    (∀ p, isContainerRunning w (createContainerName imageName) = false →
      isPortAvailable w port = false →
      findAvailablePort w.portFree (port + 1) = some p →
      (runContainer w imageName (createContainerName imageName) p).1 = true →
      ((createAndRunContainer w imageName port).result =
          some ⟨createContainerName imageName, p⟩ ∧
        port + 1 ≤ p ∧ w.portFree p = true ∧
        ∀ q, port + 1 ≤ q → q < p → w.portFree q = false)) := by
  refine ⟨?_, ?_, ?_⟩
  · intro hrun hbusy hfind
    rw [createAndRun_eq_cases, if_neg (by rw [hrun]; exact Bool.false_ne_true),
      if_neg (by rw [hbusy]; exact Bool.false_ne_true), hfind, afterPort_none]
  · intro p hrun hch hfail
    rw [createAndRun_eq_cases, if_neg (by rw [hrun]; exact Bool.false_ne_true),
      hch, afterPort_some]
    rcases hrc : runContainer w imageName (createContainerName imageName) p with
      ⟨flag, w1⟩
    rw [hrc] at hfail
    cases flag
    · rw [afterRun_false]
    · cases hfail
  · intro p hrun hbusy hfind hok
    have hch : (if isPortAvailable w port then some port
        else findAvailablePort w.portFree (port + 1)) = some p := by
      rw [if_neg (by rw [hbusy]; exact Bool.false_ne_true), hfind]
    have hmin := (findAvailablePort_eq_some_iff w.portFree (port + 1) 65535 p).mp hfind
    refine ⟨?_, hmin.1, hmin.2.2.1, hmin.2.2.2⟩
    rw [createAndRun_eq_cases, if_neg (by rw [hrun]; exact Bool.false_ne_true),
      hch, afterPort_some]
    rcases hrc : runContainer w imageName (createContainerName imageName) p with
      ⟨flag, w1⟩
    rw [hrc] at hok
    cases flag
    · cases hok
    · rw [afterRun_true]

/-- World of the first C6 witness: every port occupied. -/
def allPortsBusyWorld : DockerWorld :=
  { running := [], existing := [], portFree := fun _ => false,
    startsOk := fun _ => true }

/-- World of the second C6 witness: only port 6000 occupied, clean starts. -/
def fallbackWorld : DockerWorld :=
  { running := [], existing := [], portFree := fun p => p != 6000,
    startsOk := fun _ => true }

/-- Witness for C6: with all ports busy the call fails with `null` and no
`run`; with only the preferred port busy the handle carries the first free
port above it. -/
theorem createAndRunContainer_failure_semantics_witness :
    createAndRunContainer allPortsBusyWorld "acme/svc:1.2" 6000 =
      ⟨none, allPortsBusyWorld, 0⟩ ∧
    (createAndRunContainer fallbackWorld "acme/svc:1.2" 6000).result =
      some ⟨"acme-svc-mcp-container", 6001⟩ := by
  constructor
  · exact (createAndRunContainer_failure_semantics allPortsBusyWorld
      "acme/svc:1.2" 6000).1 (by decide) rfl
      ((findAvailablePort_eq_none_iff _ _ _).mpr (fun q hq1 hq2 => rfl))
  · exact ((createAndRunContainer_failure_semantics fallbackWorld
      "acme/svc:1.2" 6000).2.2 6001 (by decide) rfl rfl (by decide)).1

/-! ## Claim C10 -/

/-- C10.  Stopped containers are never restarted: when a container with the
derived name exists in the runtime but the running-state check misses it, and
a port was chosen, the `docker run --name` invocation fails on the name
conflict, `runContainer` returns `false` leaving the world unchanged (nothing
is removed or restarted), and `createAndRunContainer` returns `null` after
that one failed `run` invocation — and since the world is unchanged, every
later call with the same image fails the same way until the stale container
is removed out of band. -/
theorem createAndRunContainer_stale_name_conflict (w : DockerWorld)
    (imageName : String) (port p : Nat)
    (hrun : isContainerRunning w (createContainerName imageName) = false)
    (hex : createContainerName imageName ∈ w.existing)
    (hch : (if isPortAvailable w port then some port
        else findAvailablePort w.portFree (port + 1)) = some p) :
    runContainer w imageName (createContainerName imageName) p = (false, w) ∧
    createAndRunContainer w imageName port = ⟨none, w, 1⟩ := by
  have hconf := runContainer_conflict w imageName (createContainerName imageName)
    p (Or.inl hex)
  refine ⟨hconf, ?_⟩
  rw [createAndRun_eq_cases, if_neg (by rw [hrun]; exact Bool.false_ne_true),
    hch, afterPort_some, hconf, afterRun_false]

/-- World of the C10 witness: the derived container exists but is stopped. -/
def staleWorld : DockerWorld :=
  { running := [], existing := ["acme-svc-mcp-container"],
    portFree := fun _ => true, startsOk := fun _ => true }

/-- Witness for C10: the stale container makes the call fail with one `run`
invocation and an unchanged world. -/
theorem createAndRunContainer_stale_name_conflict_witness :
    createAndRunContainer staleWorld "acme/svc:1.2" 5000 =
      ⟨none, staleWorld, 1⟩ :=
  (createAndRunContainer_stale_name_conflict staleWorld "acme/svc:1.2" 5000 5000
    (by decide) (by decide) rfl).2

end AutomateMcp
